import Mathlib

/-!
Verification development for the BookExplorer repository.

Shallow embedding of the core search/detail logic:
* `book.service.ts` — the fetch client (`searchBooks`, `getBookDetails`,
  URL construction, soft/hard failure handling);
* `search.component.ts` — the reactive search pipeline
  (`debounceTime(300)`, `distinctUntilChanged`, `switchMap` dispatch) and
  the session state machine (`ngOnInit` tap/settlement handlers,
  `loadMore` and its settlement);
* `book-detail.component.ts` — the detail view settlement handler.

Strings are modelled as `List Char` (`Str`) so that trimming and
startsWith facts are provable by structural induction.
-/

/-- Strings of the embedded program, modelled as lists of characters. -/
abbrev Str := List Char

/-- Whitespace test used by JavaScript `String.trim` (ASCII portion). -/
def isWs (c : Char) : Bool :=
  c == ' ' || c == '\t' || c == '\n' || c == '\r' || c == '\x0b' || c == '\x0c'

/-- Model of JavaScript `String.trim`: drop whitespace from both ends. -/
def trim (s : Str) : Str :=
  ((s.dropWhile isWs).reverse.dropWhile isWs).reverse

/-- Model of JavaScript `String.startsWith`: `strStartsWith s p` is true
when `p` is an initial segment of `s`. -/
def strStartsWith : Str → Str → Bool
  | _, [] => true
  | [], _ :: _ => false
  | c :: cs, p :: ps => c == p && strStartsWith cs ps

/-- Decimal rendering of a natural number, as an embedded string. -/
def natToStr (n : Nat) : Str := (toString n).data

/-- Decimal rendering of an integer, as an embedded string. -/
def intToStr (i : Int) : Str := (toString i).data

/-- Book search-result record (`Book` in `book.model.ts`). -/
structure Book where
  key : Str
  title : Str
  author_name : Option (List Str) := none
  first_publish_year : Option Int := none
  isbn : Option (List Str) := none
  cover_i : Option Int := none
  subject : Option (List Str) := none
deriving DecidableEq

/-- Description payload of a work: the API returns either a plain string
or an object `{value: string}` (`book.model.ts`). -/
inductive DescriptionValue where
  | plain (s : Str)
  | wrapped (value : Str)
deriving DecidableEq

/-- Detailed work record (`BookDetail` in `book.model.ts`). -/
structure BookDetail where
  title : Str
  description : Option DescriptionValue := none
  subjects : Option (List Str) := none
  covers : Option (List Int) := none
  first_publish_date : Option Str := none
  number_of_pages : Option Int := none
deriving DecidableEq

/-- Raw search response (`OpenLibrarySearchResponse` in `book.model.ts`);
fields optional because `searchBooks` defends against their absence with
the `|| []` / `|| 0` fallbacks. -/
structure OpenLibrarySearchResponse where
  numFound : Option Nat := none
  start : Option Nat := none
  docs : Option (List Book) := none
deriving DecidableEq

/-- Filter record passed to `searchBooks` (`SearchFilters` in
`book.model.ts`); `none` models an absent/undefined field. -/
structure SearchFilters where
  author : Option Str := none
  year : Option Int := none
  subject : Option Str := none
deriving DecidableEq

/-- Value delivered to subscribers of `searchBooks`. -/
structure SearchResult where
  books : List Book
  totalResults : Nat
deriving DecidableEq

/-- Transport-level failure delivered by the HTTP client. -/
structure TransportError where
  message : Str
deriving DecidableEq

/-- Observable produced by `searchBooks`: either an immediate value (the
empty-query short circuit, no network contact) or an HTTP GET request
carrying the built query parameters. -/
inductive SearchOutcome where
  | immediate (books : List Book) (totalResults : Nat)
  | request (params : List (Str × Str))
deriving DecidableEq

/-- Query parameters built by `searchBooks` (`book.service.ts`): `q`,
`limit`, `offset` always; `author` / `first_publish_year` / `subject`
only when the corresponding filter is present and non-blank (the year
only when truthy, i.e. nonzero). -/
def buildParams (query : Str) (filters : SearchFilters) (page : Nat) : List (Str × Str) :=
  let limit : Nat := 20
  let base := [("q".data, trim query),
               ("limit".data, natToStr limit),
               ("offset".data, natToStr ((page - 1) * limit))]
  let withAuthor :=
    match filters.author with
    | some a => if (trim a).length > 0 then base ++ [("author".data, trim a)] else base
    | none => base
  let withYear :=
    match filters.year with
    | some y => if y ≠ 0 then withAuthor ++ [("first_publish_year".data, intToStr y)] else withAuthor
    | none => withAuthor
  match filters.subject with
  | some su => if (trim su).length > 0 then withYear ++ [("subject".data, trim su)] else withYear
  | none => withYear

/-- Model of `BookService.searchBooks` up to the point the observable is
created: an empty or whitespace-only query short-circuits to an
immediate empty result (`of({books: [], totalResults: 0})`); otherwise
an HTTP request with the built parameters is issued. -/
def searchBooks (query : Str) (filters : SearchFilters) (page : Nat) : SearchOutcome :=
  if (trim query).length = 0 then SearchOutcome.immediate [] 0
  else SearchOutcome.request (buildParams query filters page)

/-- Model of the `map` stage of `searchBooks`: raw response to
`{books: docs || [], totalResults: numFound || 0}`. -/
def mapSearchResponse (resp : OpenLibrarySearchResponse) : SearchResult :=
  { books := resp.docs.getD [], totalResults := resp.numFound.getD 0 }

/-- Settlement of a dispatched search request (`map` + `catchError` in
`searchBooks`): a successful response is mapped, any transport or parse
error is swallowed into `{books: [], totalResults: 0}`; the codomain
has no error alternative, so no error value can reach the caller. -/
def searchSettle (outcome : Except TransportError OpenLibrarySearchResponse) : SearchResult :=
  match outcome with
  | Except.ok resp => mapSearchResponse resp
  | Except.error _ => { books := [], totalResults := 0 }

/-- Literal `/works/` used by `getBookDetails`. -/
def worksRoot : Str := "/works/".data

/-- Literal base URL `https://openlibrary.org` used by `getBookDetails`. -/
def openLibraryBase : Str := "https://openlibrary.org".data

/-- Literal `.json` suffix used by `getBookDetails`. -/
def jsonSuffix : Str := ".json".data

/-- Normalisation of the work identifier in `getBookDetails`:
`workId.startsWith('/works/') ? workId : '/works/' + workId`. -/
def cleanWorkId (workId : Str) : Str :=
  if strStartsWith workId worksRoot then workId else worksRoot ++ workId

/-- URL requested by `getBookDetails`:
`https://openlibrary.org${cleanWorkId}.json`. -/
def detailUrl (workId : Str) : Str :=
  openLibraryBase ++ cleanWorkId workId ++ jsonSuffix

/-- Settlement of `getBookDetails` (its `catchError` logs and rethrows):
a success passes through and an error is re-raised to the caller
unchanged — the service never degrades to a default value. -/
def getBookDetailsSettle (outcome : Except TransportError BookDetail) :
    Except TransportError BookDetail :=
  match outcome with
  | Except.ok d => Except.ok d
  | Except.error e => Except.error e

/-- State of the detail view (`book-detail.component.ts`). -/
structure DetailViewState where
  isLoading : Bool
  hasError : Bool
  book : Option BookDetail
deriving DecidableEq

/-- Initial detail-view state: `isLoading = true`, `hasError = false`,
no book yet. -/
def detailInit : DetailViewState :=
  { isLoading := true, hasError := false, book := none }

/-- Settlement handler of the detail view's `ngOnInit` pipe: `tap` on
success clears both flags and stores the book; `catchError` sets
`hasError`, clears `isLoading` and substitutes `null` for the book. -/
def detailApply (outcome : Except TransportError BookDetail) (s : DetailViewState) :
    DetailViewState :=
  match outcome with
  | Except.ok d => { s with isLoading := false, hasError := false, book := some d }
  | Except.error _ => { s with isLoading := false, hasError := true, book := none }

/-- Search mode selected by `searchTypeControl` in `search.component.ts`
(`'title' | 'author'`). -/
inductive SearchType where
  | title
  | author
deriving DecidableEq

/-- Emission of the `combineLatest` in `SearchComponent.ngOnInit`: the
free-text query, the three filter-form values, and the search type. -/
structure Criteria where
  query : Str
  author : Str
  year : Option Int
  subject : Str
  searchType : SearchType
deriving DecidableEq

/-- Comparator passed to `distinctUntilChanged` in
`SearchComponent.ngOnInit` (lines 140-147): two emissions are considered
equal when the query, the three filter fields, and the search type all
agree (`prev[0] === curr[0] && prev[1].author === curr[1].author && ...
&& prev[2] === curr[2]`). -/
def criteriaEq (a b : Criteria) : Bool :=
  a.query == b.query && a.author == b.author && a.year == b.year &&
    a.subject == b.subject && a.searchType == b.searchType

/-- Model of `debounceTime d` over a timestamped emission list (times
nondecreasing): an emission is forwarded `d` after it arrives unless a
later emission arrives strictly within `d`, in which case the timer
restarts and the superseded emission is dropped before dispatch. -/
def debounceTime (d : Nat) : List (Nat × Criteria) → List (Nat × Criteria)
  | [] => []
  | [(t, a)] => [(t + d, a)]
  | (t₁, a) :: (t₂, b) :: rest =>
      if t₂ - t₁ < d then debounceTime d ((t₂, b) :: rest)
      else (t₁ + d, a) :: debounceTime d ((t₂, b) :: rest)

/-- Model of `distinctUntilChanged cmp`: an emission equal (under `cmp`)
to the last forwarded value is suppressed; the comparison value is
updated only when an emission is forwarded. The first argument is the
previously forwarded value, if any. -/
def distinctUntilChanged (cmp : Criteria → Criteria → Bool) :
    Option Criteria → List Criteria → List Criteria
  | _, [] => []
  | none, a :: rest => a :: distinctUntilChanged cmp (some a) rest
  | some p, a :: rest =>
      if cmp p a then distinctUntilChanged cmp (some p) rest
      else a :: distinctUntilChanged cmp (some a) rest

/-- Predicate: consecutive emissions of the list are separated by less
than `d` time units. -/
def withinQuiet (d : Nat) : List (Nat × Criteria) → Bool
  | [] => true
  | [_] => true
  | (t₁, _) :: (t₂, b) :: rest =>
      decide (t₂ - t₁ < d) && withinQuiet d ((t₂, b) :: rest)

/-- Comparator application against an optional previously dispatched
value: with no previous dispatch nothing is ever considered equal. -/
def prevEq (prev : Option Criteria) (c : Criteria) : Bool :=
  match prev with
  | none => false
  | some p => criteriaEq p c

/-- Criteria dispatched into `switchMap` by the pipeline of
`SearchComponent.ngOnInit` for a given timestamped emission list:
`debounceTime(300)` followed by `distinctUntilChanged(criteriaEq)`,
seeded with the previously dispatched criteria (if any). -/
def pipelineDispatches (prev : Option Criteria) (evs : List (Nat × Criteria)) :
    List Criteria :=
  distinctUntilChanged criteriaEq prev ((debounceTime 300 evs).map Prod.snd)

/-- Adjacent-distinctness of a dispatch list: no dispatched criteria is
`criteriaEq`-equal to the immediately preceding dispatched criteria
(the seed counting as the dispatch preceding the first element). -/
def AdjOk : Option Criteria → List Criteria → Prop
  | _, [] => True
  | none, a :: rest => AdjOk (some a) rest
  | some p, a :: rest => criteriaEq p a = false ∧ AdjOk (some a) rest

/-- Fetch request issued against the search API: the criteria captured
at dispatch time together with the requested page number. -/
structure PageRequest where
  criteria : Criteria
  pageNumber : Nat
deriving DecidableEq

/-- Settled value of one search fetch, as consumed by the component
(`result.books`, `result.totalResults`). -/
structure FetchResult where
  books : List Book
  totalResults : Nat
deriving DecidableEq

/-- Mutable session state owned by `SearchComponent`, together with the
in-flight fetches. `pendingFirst` models the single inner observable
`switchMap` keeps subscribed (replaced — i.e. unsubscribed — on every
new dispatch); `pendingMore` models the subscription opened by
`loadMore` (closed only by its own settlement or destroy); `criteria`
is the most recently dispatched criteria. -/
structure SessionState where
  books : List Book
  isLoading : Bool
  isLoadingMore : Bool
  currentPage : Nat
  totalResults : Nat
  hasMoreResults : Bool
  pendingFirst : Option Criteria
  pendingMore : Option (Criteria × Nat)
  criteria : Option Criteria
deriving DecidableEq

/-- Field initial values of `SearchComponent`. -/
def initialState : SessionState :=
  { books := [], isLoading := false, isLoadingMore := false, currentPage := 1,
    totalResults := 0, hasMoreResults := true, pendingFirst := none,
    pendingMore := none, criteria := none }

/-- The `tap` stage run synchronously on every dispatched emission
(`isLoading = true; currentPage = 1; books = []; hasMoreResults = true`). -/
def tapReset (s : SessionState) : SessionState :=
  { s with isLoading := true, currentPage := 1, books := [], hasMoreResults := true }

/-- Dispatch of a first-page fetch: the `tap` reset followed by
`switchMap` issuing `searchBooks(query, filters, 1, searchType)`; the
previous inner observable (if any) is unsubscribed — `pendingFirst` is
replaced. -/
def dispatchStep (c : Criteria) (s : SessionState) : SessionState × List PageRequest :=
  ({ tapReset s with pendingFirst := some c, criteria := some c },
   [{ criteria := c, pageNumber := 1 }])

/-- Settlement of a first-page fetch originating from criteria `c`
(the `tap` after `switchMap` in `ngOnInit`). A settlement whose
originating criteria is not the currently subscribed inner observable
never delivers — `switchMap` unsubscribed it — so it leaves the state
untouched. -/
def settleFirstState (c : Criteria) (r : FetchResult) (s : SessionState) : SessionState :=
  if s.pendingFirst = some c then
    { s with books := r.books, totalResults := r.totalResults,
             hasMoreResults := decide (r.books.length < r.totalResults),
             isLoading := false, pendingFirst := none }
  else s

/-- Model of `SearchComponent.loadMore`, with `c` the criteria read from
`searchQuery$.value` / the filter form / the type control at call time:
guarded no-op when `!hasMoreResults || isLoadingMore`; otherwise sets
`isLoadingMore`, increments `currentPage` and issues the next-page
fetch. -/
def loadMore (c : Criteria) (s : SessionState) : SessionState × List PageRequest :=
  if !s.hasMoreResults || s.isLoadingMore then (s, [])
  else
    ({ s with isLoadingMore := true, currentPage := s.currentPage + 1,
              pendingMore := some (c, s.currentPage + 1) },
     [{ criteria := c, pageNumber := s.currentPage + 1 }])

/-- Settlement of the fetch issued by `loadMore`: its subscription is
closed only by `takeUntil(destroy$)`, so as long as it is open the
handler runs unconditionally — it appends the returned books,
recomputes `hasMoreResults` against the settlement's reported total,
and clears `isLoadingMore`; the stored `totalResults` is not written. -/
def settleMoreState (r : FetchResult) (s : SessionState) : SessionState :=
  match s.pendingMore with
  | none => s
  | some _ =>
      { s with books := s.books ++ r.books,
               hasMoreResults := decide ((s.books ++ r.books).length < r.totalResults),
               isLoadingMore := false, pendingMore := none }

/-- Events of the session state machine. -/
inductive Ev where
  | dispatch (c : Criteria)
  | settleFirst (c : Criteria) (r : FetchResult)
  | callLoadMore (c : Criteria)
  | settleMore (r : FetchResult)

/-- One step of the session state machine, returning the successor state
and the fetch requests issued by the step. -/
def step (e : Ev) (s : SessionState) : SessionState × List PageRequest :=
  match e with
  | Ev.dispatch c => dispatchStep c s
  | Ev.settleFirst c r => (settleFirstState c r s, [])
  | Ev.callLoadMore c => loadMore c s
  | Ev.settleMore r => (settleMoreState r s, [])

/-- State part of one step. -/
def stepState (e : Ev) (s : SessionState) : SessionState := (step e s).1

/-- States reachable from the component's initial state under any
sequence of dispatches, settlements and `loadMore` calls. -/
inductive Reachable : SessionState → Prop where
  | init : Reachable initialState
  | step (e : Ev) {s : SessionState} : Reachable s → Reachable (stepState e s)

/-- Structural invariant of the session machine: each loading flag holds
exactly when the corresponding fetch is in flight, and the criteria of
the subscribed first-page fetch is the current criteria. -/
def SessionInv (s : SessionState) : Prop :=
  s.isLoading = s.pendingFirst.isSome ∧
  s.isLoadingMore = s.pendingMore.isSome ∧
  ∀ c, s.pendingFirst = some c → s.criteria = some c

/-- Concrete book used in counterexample traces. -/
def bDune : Book :=
  { key := "/works/OL1W".data, title := "Dune".data }

/-- Second concrete book used in counterexample traces. -/
def bNext : Book :=
  { key := "/works/OL2W".data, title := "Next".data }

/-- Concrete criteria: query `dune`, empty filters, title search. -/
def cA : Criteria :=
  { query := "dune".data, author := "".data, year := none, subject := "".data,
    searchType := SearchType.title }

/-- Concrete criteria: query `lord`, empty filters, title search. -/
def cB : Criteria :=
  { query := "lord".data, author := "".data, year := none, subject := "".data,
    searchType := SearchType.title }

/-- Concrete criteria agreeing with `cA` on the query and the three
filter fields but selecting the author search type. -/
def cC : Criteria :=
  { query := "dune".data, author := "".data, year := none, subject := "".data,
    searchType := SearchType.author }

/-- Concrete first-page settlement: one book, three claimed in total. -/
def rA : FetchResult := { books := [bDune], totalResults := 3 }

/-- Concrete next-page settlement: one book, two claimed in total. -/
def rB : FetchResult := { books := [bNext], totalResults := 2 }

/-- Trace: criteria `cA` dispatched from the initial state. -/
def tA1 : SessionState := stepState (Ev.dispatch cA) initialState

/-- Trace: the first page for `cA` settles with `rA`. -/
def tA2 : SessionState := stepState (Ev.settleFirst cA rA) tA1

/-- Trace: `loadMore` is called while the `cA` session is ready. -/
def tA3 : SessionState := stepState (Ev.callLoadMore cA) tA2

/-- Trace: criteria `cB` is dispatched while the next-page fetch for
`cA` is still in flight. -/
def tB4 : SessionState := stepState (Ev.dispatch cB) tA3

/-- Trace: the next-page fetch settles (same session as `tA3`). -/
def tC4 : SessionState := stepState (Ev.settleMore rB) tA3

/-- Concrete state with a next-page fetch already in flight. -/
def sBusy : SessionState := { initialState with isLoadingMore := true }

/-- Concrete whitespace-only query. -/
def wsQuery : Str := " ".data

/-- Concrete bare work identifier. -/
def sampleWorkId : Str := "OL45804W".data

/-- Reachability of the state after dispatch, first settlement and a
`loadMore` call. -/
theorem reachable_tA3 : Reachable tA3 :=
  Reachable.step (Ev.callLoadMore cA)
    (Reachable.step (Ev.settleFirst cA rA)
      (Reachable.step (Ev.dispatch cA) Reachable.init))

/-- Reachability of the overlap state `tB4`. -/
theorem reachable_tB4 : Reachable tB4 :=
  Reachable.step (Ev.dispatch cB) reachable_tA3

/-- Reachability of the post-next-page-settlement state `tC4`. -/
theorem reachable_tC4 : Reachable tC4 :=
  Reachable.step (Ev.settleMore rB) reachable_tA3

/-- Lists all of whose elements satisfy `p` are fully dropped by
`dropWhile p`. -/
theorem dropWhile_all {p : Char → Bool} :
    ∀ l : Str, (∀ c ∈ l, p c = true) → l.dropWhile p = [] := by
  intro l h
  induction l with
  | nil => rfl
  | cons c cs ih =>
      rw [List.dropWhile_cons]
      rw [h c (by simp)]
      simp only [if_true]
      exact ih fun x hx => h x (by simp [hx])

/-- Trimming a whitespace-only string yields the empty string. -/
theorem trim_all_ws {l : Str} (h : ∀ c ∈ l, isWs c = true) : trim l = [] := by
  unfold trim
  rw [dropWhile_all l h]
  rfl

/-- Appending after a string keeps that string as an initial segment. -/
theorem strStartsWith_append (p s : Str) : strStartsWith (p ++ s) p = true := by
  induction p with
  | nil => simp [strStartsWith]
  | cons c cs ih => simp [strStartsWith, ih]

/-- Debouncing a nonempty burst whose consecutive emissions all arrive
within the quiet period forwards exactly the last emission, one quiet
period after it arrives. -/
theorem debounce_burst :
    ∀ (evs : List (Nat × Criteria)) (t : Nat) (c : Criteria),
      withinQuiet 300 evs = true → evs.getLast? = some (t, c) →
      debounceTime 300 evs = [(t + 300, c)] := by
  intro evs
  induction evs with
  | nil => intro t c _ hl; simp at hl
  | cons x rest ih =>
      intro t c hq hl
      cases rest with
      | nil =>
          obtain ⟨t₁, a⟩ := x
          simp [List.getLast?] at hl
          obtain ⟨h1, h2⟩ := hl
          simp [debounceTime, h1, h2]
      | cons y rest2 =>
          obtain ⟨t₁, a⟩ := x
          obtain ⟨t₂, b⟩ := y
          simp only [withinQuiet, Bool.and_eq_true, decide_eq_true_eq] at hq
          obtain ⟨hgap, hq2⟩ := hq
          rw [List.getLast?_cons_cons] at hl
          simp only [debounceTime, if_pos hgap]
          exact ih t c hq2 hl

/-- Every list forwarded by `distinctUntilChanged` is adjacent-distinct
with respect to the comparator seed. -/
theorem distinct_adjOk (l : List Criteria) :
    ∀ prev : Option Criteria, AdjOk prev (distinctUntilChanged criteriaEq prev l) := by
  induction l with
  | nil => intro prev; cases prev <;> exact trivial
  | cons a rest ih =>
      intro prev
      cases prev with
      | none => exact ih (some a)
      | some p =>
          by_cases h : criteriaEq p a = true
          · have heq : distinctUntilChanged criteriaEq (some p) (a :: rest) =
                distinctUntilChanged criteriaEq (some p) rest := by
              simp [distinctUntilChanged, h]
            rw [heq]
            exact ih (some p)
          · have hb : criteriaEq p a = false := by
              simpa using h
            have heq : distinctUntilChanged criteriaEq (some p) (a :: rest) =
                a :: distinctUntilChanged criteriaEq (some a) rest := by
              simp [distinctUntilChanged, hb]
            rw [heq]
            exact ⟨hb, ih (some a)⟩

/-- The structural invariant holds in the initial state. -/
theorem sessionInv_init : SessionInv initialState := by
  refine ⟨rfl, rfl, ?_⟩
  intro c h
  simp [initialState] at h

/-- The structural invariant is preserved by every step. -/
theorem sessionInv_step (e : Ev) (s : SessionState) (h : SessionInv s) :
    SessionInv (stepState e s) := by
  obtain ⟨h1, h2, h3⟩ := h
  cases e with
  | dispatch c =>
      refine ⟨rfl, ?_, ?_⟩
      · simpa [stepState, step, dispatchStep, tapReset] using h2
      · intro c' hc'
        simp only [stepState, step, dispatchStep, tapReset] at hc' ⊢
        simp at hc'
        simp [hc']
  | settleFirst c r =>
      by_cases hp : s.pendingFirst = some c
      · refine ⟨?_, ?_, ?_⟩
        · simp [stepState, step, settleFirstState, hp]
        · simpa [stepState, step, settleFirstState, hp] using h2
        · intro c' hc'
          simp [stepState, step, settleFirstState, hp] at hc'
      · simpa [stepState, step, settleFirstState, hp] using ⟨h1, h2, h3⟩
  | callLoadMore c =>
      by_cases hg : (!s.hasMoreResults || s.isLoadingMore) = true
      · simpa [stepState, step, loadMore, hg] using ⟨h1, h2, h3⟩
      · refine ⟨?_, ?_, ?_⟩
        · simpa [stepState, step, loadMore, hg] using h1
        · simp [stepState, step, loadMore, hg]
        · intro c' hc'
          simp only [stepState, step, loadMore, hg] at hc' ⊢
          simp at hc' ⊢
          exact h3 c' hc'
  | settleMore r =>
      cases hm : s.pendingMore with
      | none => simpa [stepState, step, settleMoreState, hm] using ⟨h1, h2, h3⟩
      | some pr =>
          refine ⟨?_, ?_, ?_⟩
          · simpa [stepState, step, settleMoreState, hm] using h1
          · simp [stepState, step, settleMoreState, hm]
          · intro c' hc'
            simp only [stepState, step, settleMoreState, hm] at hc' ⊢
            exact h3 c' hc'

/-- Every reachable session state satisfies the structural invariant. -/
theorem reachable_inv {s : SessionState} (h : Reachable s) : SessionInv s := by
  induction h with
  | init => exact sessionInv_init
  | step e _ ih => exact sessionInv_step e _ ih

/-- Claim C1, counterexample: in the reachable state `tB4` the current
criteria is `cB` while the next-page fetch started by `loadMore` under
`cA` is still in flight; its settlement is not discarded — it changes
the accumulated `books`, refuting the claim for next-page fetches. -/
theorem c1_counterexample :
    Reachable tB4 ∧ tB4.criteria = some cB ∧ tB4.pendingMore = some (cA, 2) ∧
      ¬(cA = cB) ∧ ¬((stepState (Ev.settleMore rB) tB4).books = tB4.books) :=
  ⟨reachable_tB4, by decide, by decide, by decide, by decide⟩

/-- Claim C1 (amended): a first-page settlement whose originating
criteria is no longer the current criteria is discarded — it changes
no part of the session state; a next-page settlement started by
`loadMore`, however, merges its items into the accumulated list
whenever its subscription is still open, regardless of whether its
originating criteria is still current. -/
theorem c1_theorem :
    (∀ (s : SessionState) (c : Criteria) (r : FetchResult),
        Reachable s → s.criteria ≠ some c → stepState (Ev.settleFirst c r) s = s) ∧
    (∀ (s : SessionState) (r : FetchResult), s.pendingMore.isSome = true →
        (stepState (Ev.settleMore r) s).books = s.books ++ r.books) := by
  constructor
  · intro s c r hs hcrit
    have hinv := reachable_inv hs
    by_cases hp : s.pendingFirst = some c
    · exact absurd (hinv.2.2 c hp) hcrit
    · simp [stepState, step, settleFirstState, hp]
  · intro s r hm
    cases hpm : s.pendingMore with
    | none => rw [hpm] at hm; simp at hm
    | some pr => simp [stepState, step, settleMoreState, hpm]

/-- Claim C1, witness: both halves of the amended theorem applied at
concrete inputs. -/
theorem c1_witness :
    (initialState.criteria ≠ some cA ∧
      stepState (Ev.settleFirst cA rA) initialState = initialState) ∧
    (tA3.pendingMore.isSome = true ∧
      (stepState (Ev.settleMore rB) tA3).books = tA3.books ++ rB.books) :=
  ⟨⟨by decide, c1_theorem.1 initialState cA rA Reachable.init (by decide)⟩,
   ⟨by rfl, c1_theorem.2 tA3 rB (by rfl)⟩⟩

/-- Claim C2, counterexample: in the reachable state `tC4`, reached by a
next-page settlement reporting a total of 2, the flag `hasMoreResults`
is `false` although the accumulated item count (2) is below the stored
total (3) — the stored total was not updated from that settlement, so
`hasMoreResults` disagrees with `books.length < totalResults`. -/
theorem c2_counterexample :
    Reachable tC4 ∧ tC4.hasMoreResults = false ∧
      tC4.books.length < tC4.totalResults ∧ ¬(tC4.totalResults = rB.totalResults) :=
  ⟨reachable_tC4, by decide, by decide, by decide⟩

/-- Claim C2 (amended): immediately after a first-page settlement,
`hasMoreResults` equals `books.length < totalResults` and the stored
total is updated to the settlement's reported total; immediately after
a next-page settlement, `hasMoreResults` equals `books.length <` the
total reported by that settlement, while the stored `totalResults` is
left unchanged. -/
theorem c2_theorem :
    (∀ (s : SessionState) (c : Criteria) (r : FetchResult), s.pendingFirst = some c →
        (stepState (Ev.settleFirst c r) s).hasMoreResults =
          decide ((stepState (Ev.settleFirst c r) s).books.length <
                  (stepState (Ev.settleFirst c r) s).totalResults) ∧
        (stepState (Ev.settleFirst c r) s).totalResults = r.totalResults) ∧
    (∀ (s : SessionState) (r : FetchResult), s.pendingMore.isSome = true →
        (stepState (Ev.settleMore r) s).hasMoreResults =
          decide ((stepState (Ev.settleMore r) s).books.length < r.totalResults) ∧
        (stepState (Ev.settleMore r) s).totalResults = s.totalResults ∧
        (stepState (Ev.settleMore r) s).books = s.books ++ r.books) := by
  constructor
  · intro s c r hp
    simp [stepState, step, settleFirstState, hp]
  · intro s r hm
    cases hpm : s.pendingMore with
    | none => rw [hpm] at hm; simp at hm
    | some pr => simp [stepState, step, settleMoreState, hpm]

/-- Claim C2, witness: both halves of the amended theorem applied at
concrete inputs. -/
theorem c2_witness :
    (tA1.pendingFirst = some cA ∧
      (stepState (Ev.settleFirst cA rA) tA1).totalResults = rA.totalResults) ∧
    (tA3.pendingMore.isSome = true ∧
      (stepState (Ev.settleMore rB) tA3).totalResults = tA3.totalResults) :=
  ⟨⟨by decide, (c2_theorem.1 tA1 cA rA (by decide)).2⟩,
   ⟨by rfl, (c2_theorem.2 tA3 rB (by rfl)).2.1⟩⟩

/-- Claim C3, counterexample: with `cA` previously dispatched, the burst
`cB` at time 0 then `cA` at time 100 (gap below the 300-unit quiet
period) produces zero dispatches — the debounced final value equals the
previously dispatched criteria and `distinctUntilChanged` suppresses
it — refuting that exactly one fetch is dispatched. -/
theorem c3_counterexample :
    withinQuiet 300 [(0, cB), (100, cA)] = true ∧
      pipelineDispatches (some cA) [(0, cB), (100, cA)] = [] := by
  exact ⟨by decide, by decide⟩

/-- Claim C3 (amended): for every nonempty emission sequence whose
consecutive emissions are separated by less than the 300-unit quiet
period, at most one fetch is dispatched and it carries the last
criteria of the sequence — exactly one unless the last criteria equals,
under the pipeline's comparator, the previously dispatched criteria, in
which case none; no intermediate criteria is ever dispatched. -/
theorem c3_theorem (prev : Option Criteria) (evs : List (Nat × Criteria))
    (t : Nat) (c : Criteria)
    (hq : withinQuiet 300 evs = true) (hl : evs.getLast? = some (t, c)) :
    pipelineDispatches prev evs = if prevEq prev c then [] else [c] := by
  unfold pipelineDispatches
  rw [debounce_burst evs t c hq hl]
  cases prev with
  | none => simp [distinctUntilChanged, prevEq]
  | some p =>
      by_cases h : criteriaEq p c = true
      · simp [distinctUntilChanged, prevEq, h]
      · have hb : criteriaEq p c = false := by simpa using h
        simp [distinctUntilChanged, prevEq, hb]

/-- Claim C3, witness: a two-emission burst with no previous dispatch
dispatches exactly the last criteria. -/
theorem c3_witness :
    withinQuiet 300 [(0, cA), (100, cB)] = true ∧
      ([(0, cA), (100, cB)] : List (Nat × Criteria)).getLast? = some (100, cB) ∧
      pipelineDispatches none [(0, cA), (100, cB)] = [cB] :=
  ⟨by decide, by rfl, by
    rw [c3_theorem none [(0, cA), (100, cB)] 100 cB (by decide) (by rfl)]
    decide⟩

/-- Claim C4, counterexample: `cC` agrees with the previously dispatched
`cA` on all four SearchCriteria fields (query, author, year, subject)
yet differs on the search type, and the pipeline does dispatch it —
the comparator checks five components, not four. -/
theorem c4_counterexample :
    cA.query = cC.query ∧ cA.author = cC.author ∧ cA.year = cC.year ∧
      cA.subject = cC.subject ∧
      pipelineDispatches (some cA) [(0, cC)] = [cC] := by
  decide

/-- Claim C4 (amended): an emission surviving the quiet period is
suppressed exactly when it agrees with the immediately preceding
dispatched criteria on the query, the author, year and subject filters,
and additionally the search type (the comparator of lines 140-147);
consequently every dispatched sequence is adjacent-distinct under that
five-component comparison. -/
theorem c4_theorem :
    (∀ (prev : Option Criteria) (l : List Criteria),
        AdjOk prev (distinctUntilChanged criteriaEq prev l)) ∧
    (∀ (p a : Criteria) (l : List Criteria), criteriaEq p a = true →
        distinctUntilChanged criteriaEq (some p) (a :: l) =
          distinctUntilChanged criteriaEq (some p) l) := by
  constructor
  · intro prev l
    exact distinct_adjOk l prev
  · intro p a l h
    simp [distinctUntilChanged, h]

/-- Claim C4, witness: an emission equal to the previous dispatch on all
five components is suppressed. -/
theorem c4_witness :
    criteriaEq cA cA = true ∧
      distinctUntilChanged criteriaEq (some cA) [cA] = [] :=
  ⟨by decide, by
    rw [c4_theorem.2 cA cA [] (by decide)]
    decide⟩

/-- Claim C5, counterexample: the state `tB4` — reached by dispatching
new criteria while the next-page fetch of the previous criteria is
still in flight — is reachable and has `isLoading` and `isLoadingMore`
simultaneously true, refuting mutual exclusion of the flags. -/
theorem c5_counterexample :
    Reachable tB4 ∧ tB4.isLoading = true ∧ tB4.isLoadingMore = true :=
  ⟨reachable_tB4, by decide, by decide⟩

/-- Claim C5 (amended): in every reachable state, `isLoading` holds
exactly when a first-page fetch is in flight and `isLoadingMore`
exactly when a next-page fetch is in flight; hence both flags are false
when the session is idle (no fetch in flight), but both are true in the
overlap states where a criteria dispatch occurred during an in-flight
`loadMore`. -/
theorem c5_theorem (s : SessionState) (hs : Reachable s) :
    s.isLoading = s.pendingFirst.isSome ∧
      s.isLoadingMore = s.pendingMore.isSome ∧
      (s.pendingFirst = none → s.pendingMore = none →
        s.isLoading = false ∧ s.isLoadingMore = false) := by
  have h := reachable_inv hs
  refine ⟨h.1, h.2.1, ?_⟩
  intro h1 h2
  constructor
  · rw [h.1, h1]; rfl
  · rw [h.2.1, h2]; rfl

/-- Claim C5, witness: the amended theorem applied at the initial
state. -/
theorem c5_witness :
    initialState.isLoading = initialState.pendingFirst.isSome ∧
      initialState.isLoadingMore = initialState.pendingMore.isSome :=
  ⟨(c5_theorem initialState Reachable.init).1,
   (c5_theorem initialState Reachable.init).2.1⟩

/-- Claim C6: calling `loadMore` while `isLoadingMore` is true or while
`hasMoreResults` is false returns the state unchanged — every field of
the session state is preserved — and issues no fetch request. -/
theorem c6_theorem (s : SessionState) (c : Criteria)
    (h : s.isLoadingMore = true ∨ s.hasMoreResults = false) :
    loadMore c s = (s, []) := by
  rcases h with h | h <;> simp [loadMore, h]

/-- Claim C6, witness: the guard applied at a concrete busy state. -/
theorem c6_witness :
    (sBusy.isLoadingMore = true ∨ sBusy.hasMoreResults = false) ∧
      loadMore cA sBusy = (sBusy, []) :=
  ⟨Or.inl (by decide), c6_theorem sBusy cA (Or.inl (by decide))⟩

/-- Claim C7: for every query that is empty or consists only of
whitespace characters, and every filter combination and page number,
`searchBooks` short-circuits to the immediate empty result page (zero
items, total 0) without issuing any HTTP request. -/
theorem c7_theorem (q : Str) (f : SearchFilters) (p : Nat)
    (h : ∀ c ∈ q, isWs c = true) :
    searchBooks q f p = SearchOutcome.immediate [] 0 := by
  unfold searchBooks
  rw [trim_all_ws h]
  rfl

/-- Claim C7, witness: the whitespace-only query with default filters on
page 1. -/
theorem c7_witness :
    (∀ c ∈ wsQuery, isWs c = true) ∧
      searchBooks wsQuery {} 1 = SearchOutcome.immediate [] 0 :=
  ⟨by decide, c7_theorem wsQuery {} 1 (by decide)⟩

/-- Claim C8: whenever the search transport or parse fails, the
settlement of `searchBooks` is the empty result page (no items, total
0); its codomain carries no error alternative, and the settlement is
identical to that of a successful response with zero results, so the
caller cannot distinguish a failed page from an exhausted result set. -/
theorem c8_theorem (e : TransportError) :
    searchSettle (Except.error e) = { books := [], totalResults := 0 } ∧
      searchSettle (Except.error e) =
        searchSettle (Except.ok { numFound := some 0, start := some 0, docs := some [] }) :=
  ⟨rfl, rfl⟩

/-- Claim C9: whenever the detail fetch fails, `getBookDetails`
re-raises the error to the caller rather than degrading to a default
value, and the detail view's settlement of that error sets
`hasError = true` and `isLoading = false` with no book. -/
theorem c9_theorem (e : TransportError) :
    getBookDetailsSettle (Except.error e) = Except.error e ∧
      detailApply (Except.error e) detailInit =
        { isLoading := false, hasError := true, book := none } :=
  ⟨rfl, rfl⟩

/-- Claim C10: `getBookDetails` requests the URL built from the
normalised work identifier — the identifier itself when it already
starts with `/works/`, and `/works/` prepended otherwise — so a bare
identifier and its `/works/`-prefixed form request the same URL. -/
theorem c10_theorem (id : Str) :
    (strStartsWith id worksRoot = true →
        detailUrl id = openLibraryBase ++ id ++ jsonSuffix) ∧
    (strStartsWith id worksRoot = false →
        detailUrl id = openLibraryBase ++ (worksRoot ++ id) ++ jsonSuffix ∧
        detailUrl (worksRoot ++ id) = detailUrl id) := by
  constructor
  · intro h
    simp [detailUrl, cleanWorkId, h]
  · intro h
    constructor
    · simp [detailUrl, cleanWorkId, h]
    · simp [detailUrl, cleanWorkId, h, strStartsWith_append]

/-- Claim C10, witness: the bare identifier `OL45804W` and its
`/works/`-prefixed form request the same URL. -/
theorem c10_witness :
    strStartsWith sampleWorkId worksRoot = false ∧
      detailUrl (worksRoot ++ sampleWorkId) = detailUrl sampleWorkId :=
  ⟨by decide, ((c10_theorem sampleWorkId).2 (by decide)).2⟩
